import Mathlib

/-!
Shallow embedding of the claude-mobile relay and agent, translated from the
TypeScript sources:

* `packages/relay/src/AgentRegistry.ts` — the Durable Object holding the four
  in-memory maps (`agents`, `pairingCodes`, `sessions`, `mobileConnections`)
  and the per-socket message/close handlers.
* `packages/agent/src/claude/ClaudeRunner.ts` — argument construction for the
  `claude` child process.
* `GitManager.generateBranchName` and the agent's `handleTaskStart` pipeline.

JavaScript `Map`s are modelled as association lists observed only through
`alookup`; `Map.set` replaces any existing binding for the key and `Map.delete`
removes it.  WebSocket sockets are identified by `Nat` ids; the side effects a
handler performs (`ws.send`, `ws.close`) are returned as an explicit list of
`Effect`s.  The random values produced by `generatePairingCode` and
`crypto.randomUUID` are passed to the step functions as explicit arguments.
-/

namespace ClaudeMobile

/-- Association-list lookup, mirroring `Map.get`. -/
def alookup {α : Type} : List (String × α) → String → Option α
  | [], _ => none
  | (k, v) :: rest, key => if k = key then some v else alookup rest key

/-- Mirrors `Map.delete`: remove every binding of `key`. -/
def aerase {α : Type} (m : List (String × α)) (key : String) : List (String × α) :=
  m.filter (fun p => p.1 ≠ key)

/-- Mirrors `Map.set`: bind `key` to `v`, replacing any previous binding. -/
def aset {α : Type} (m : List (String × α)) (key : String) (v : α) : List (String × α) :=
  (key, v) :: aerase m key

/--
A JSON text frame as the relay sees it.  The relay only ever reads or writes
the fields named here (`type`, `sessionId`, `pairingCode`, `sessionToken`,
`message`, and the agent-side `text`/`prUrl`/`prTitle` of the protocol types in
`types/protocol.ts`); every other property of the JSON object is carried
opaquely in `rest` and survives the spread `{ ...msg, sessionId }` untouched.
An absent property is `none`; the JS truthiness test `msg.sessionId` is
`sessionId = some s` with `s ≠ ""`.
-/
structure Frame where
  type : String
  sessionId : Option String := none
  pairingCode : Option String := none
  sessionToken : Option String := none
  message : Option String := none
  text : Option String := none
  prUrl : Option String := none
  prTitle : Option String := none
  rest : String := ""
deriving DecidableEq, Repr

/-- The frame `{type:'error', message}` as built by the relay handlers. -/
def errFrame (m : String) : Frame := { type := "error", message := some m }

/-- A side effect performed by a relay handler on some socket. -/
inductive Effect where
  | send (ws : Nat) (frame : Frame)
  | closeSock (ws : Nat) (code : Nat) (reason : String)
deriving DecidableEq, Repr

/-- The `AgentEntry` of AgentRegistry.ts: `{ ws, pairingCode, connectedAt }`. -/
structure AgentEntry where
  ws : Nat
  pairingCode : String
  connectedAt : Nat
deriving DecidableEq, Repr

/-- The four in-memory maps of the `AgentRegistry` Durable Object. -/
structure RegState where
  /-- agentToken → AgentEntry -/
  agents : List (String × AgentEntry) := []
  /-- pairingCode → agentToken -/
  pairingCodes : List (String × String) := []
  /-- sessionToken → agentToken -/
  sessions : List (String × String) := []
  /-- sessionToken → mobile WebSocket -/
  mobileConnections : List (String × Nat) := []
deriving DecidableEq, Repr

/-- The empty registry, as constructed by the Durable Object constructor. -/
def RegState.empty : RegState := {}

/--
The `fetch` path for a mobile carrying a `sessionToken` query parameter: the relay
unconditionally records `mobileConnections.set(sessionToken, server)` before
installing `handleMobileConnection` (AgentRegistry.ts line 57) — the token is
not checked against `sessions`.
-/
def acceptMobileSession (st : RegState) (ws : Nat) (sessionToken : String) : RegState :=
  { st with mobileConnections := aset st.mobileConnections sessionToken ws }

/--
The `message` handler installed by `handleAgentConnection` (lines 70-97).
`freshCode` is the value `generatePairingCode()` would return, `now` is
`Date.now()`.  An `agent_register` frame deletes the previous entry's pairing
code, installs the fresh one, and replies `register_ok`; any other frame with a
truthy `sessionId` is forwarded verbatim to the socket in `mobileConnections`,
if any.
-/
def handleAgentMessage (st : RegState) (ws : Nat) (agentToken : String)
    (now : Nat) (freshCode : String) (msg : Frame) : RegState × List Effect :=
  if msg.type = "agent_register" then
    let pcs :=
      match alookup st.agents agentToken with
      | some e => aerase st.pairingCodes e.pairingCode
      | none => st.pairingCodes
    let st' : RegState :=
      { st with
        agents := aset st.agents agentToken ⟨ws, freshCode, now⟩,
        pairingCodes := aset pcs freshCode agentToken }
    (st', [Effect.send ws { type := "register_ok", pairingCode := some freshCode }])
  else
    match msg.sessionId with
    | some s =>
      if s = "" then (st, [])
      else
        match alookup st.mobileConnections s with
        | some w => (st, [Effect.send w msg])
        | none => (st, [])
    | none => (st, [])

/--
The `close` handler installed by `handleAgentConnection` (lines 99-105).  It is
keyed by the `agentToken` captured when the socket was opened and never
compares the closing socket against the entry's current `ws` field, so the
entry and its pairing code are removed unconditionally.
-/
def handleAgentClose (st : RegState) (_closedWs : Nat) (agentToken : String) : RegState :=
  match alookup st.agents agentToken with
  | some e =>
    { st with
      pairingCodes := aerase st.pairingCodes e.pairingCode,
      agents := aerase st.agents agentToken }
  | none => st

/--
The `message` handler installed by `handleMobileConnection` (lines 112-137)
for a socket bound to `sessionToken`.  Unknown token → error frame "Session
expired — reconnect" (the socket stays open); known token but absent agent →
error frame "Agent disconnected"; otherwise the frame is forwarded to the
agent's socket with `sessionId` overwritten by the spread
`{ ...msg, sessionId: sessionToken }`.
-/
def handleMobileSessionMessage (st : RegState) (ws : Nat) (sessionToken : String)
    (msg : Frame) : RegState × List Effect :=
  match alookup st.sessions sessionToken with
  | none => (st, [Effect.send ws (errFrame "Session expired — reconnect")])
  | some agentToken =>
    match alookup st.agents agentToken with
    | none => (st, [Effect.send ws (errFrame "Agent disconnected")])
    | some e => (st, [Effect.send e.ws { msg with sessionId := some sessionToken }])

/--
The `close` handler installed by `handleMobileConnection` (lines 139-142):
removes both the socket pointer and the session mapping itself.
-/
def handleMobileSessionClose (st : RegState) (sessionToken : String) : RegState :=
  { st with
    mobileConnections := aerase st.mobileConnections sessionToken,
    sessions := aerase st.sessions sessionToken }

/--
The `message` handler installed by `handleMobilePairingConnection`
(lines 145-172).  `freshToken` is the value `crypto.randomUUID()` would
return.  A valid `mobile_connect` mints the session, records the socket,
replies `session_ok`, and deletes the pairing code ("Pairing code is
single-use"); an unknown or missing code yields an error frame.
-/
def handleMobilePairingMessage (st : RegState) (ws : Nat) (freshToken : String)
    (msg : Frame) : RegState × List Effect :=
  if msg.type ≠ "mobile_connect" then (st, [])
  else
    match msg.pairingCode with
    | none => (st, [Effect.send ws (errFrame "Invalid or expired pairing code")])
    | some code =>
      match alookup st.pairingCodes code with
      | none => (st, [Effect.send ws (errFrame "Invalid or expired pairing code")])
      | some agentToken =>
        let st' : RegState :=
          { st with
            sessions := aset st.sessions freshToken agentToken,
            mobileConnections := aset st.mobileConnections freshToken ws,
            pairingCodes := aerase st.pairingCodes code }
        (st', [Effect.send ws { type := "session_ok", sessionToken := some freshToken }])

/-! ## Agent side: ClaudeRunner argument construction

From `packages/agent/src/claude/ClaudeRunner.ts` (the module imported by the
agent entry point as `./claude/ClaudeRunner`): `run` pushes
`--dangerously-skip-permissions` only when `options.autonomous` is true
(default `false`), then always pushes `-p <prompt>`.
-/

/-- The argv built by `ClaudeRunner.run` before `spawn(this.claudeBin, args)`. -/
def buildClaudeArgs (autonomous : Bool) (prompt : String) : List String :=
  (if autonomous then ["--dangerously-skip-permissions"] else []) ++ ["-p", prompt]

/-- The agent's `handleChatMessage` calls `claudeRunner.run` without an
`autonomous` field, so the default `false` applies. -/
def chatClaudeArgs (prompt : String) : List String := buildClaudeArgs false prompt

/-- The agent's `handleTaskStart` calls `claudeRunner.run` with
`autonomous: true`. -/
def taskClaudeArgs (prompt : String) : List String := buildClaudeArgs true prompt

/-! ## Agent side: branch-name slug (GitManager.generateBranchName)

The JS pipeline on the task description is: lowercase, delete every character
outside the class `[a-z0-9\s-]`, trim, replace each run matching `\s+` with a
single hyphen, `slice(0, 50)`, and delete a trailing run of hyphens (the
end-anchored regex).  It is modelled character-by-character below.
-/

/-- Membership in the regex class `\s` (whitespace), restricted to the ASCII
whitespace characters; every concrete input used below is ASCII. -/
def isWs (c : Char) : Bool :=
  c = ' ' ∨ c = '\t' ∨ c = '\n' ∨ c = '\r' ∨ c = '\x0b' ∨ c = '\x0c'

/-- Membership in the regex class `[a-z0-9\s-]` kept by the first `replace`. -/
def keptBySanitize (c : Char) : Bool :=
  ('a' ≤ c ∧ c ≤ 'z') ∨ ('0' ≤ c ∧ c ≤ '9') ∨ isWs c ∨ c = '-'

/-- Mirrors `String.prototype.trim`: strip whitespace from both ends. -/
def jsTrim (l : List Char) : List Char :=
  ((l.dropWhile isWs).reverse.dropWhile isWs).reverse

/-- Mirrors the replace of each run matching `\s+` with one hyphen.  The
boolean tracks whether the previous character was whitespace. -/
def collapseWsAux : List Char → Bool → List Char
  | [], _ => []
  | c :: rest, prevWs =>
    if isWs c then
      if prevWs then collapseWsAux rest true else '-' :: collapseWsAux rest true
    else c :: collapseWsAux rest false

def collapseWs (l : List Char) : List Char := collapseWsAux l false

/-- The final replace of `generateBranchName`: strip trailing hyphens. -/
def stripTrailingHyphens (l : List Char) : List Char :=
  (l.reverse.dropWhile (fun c => c = '-')).reverse

/-- The slug computed by `generateBranchName`, as a character list. -/
def slugChars (ctx : List Char) : List Char :=
  stripTrailingHyphens
    (List.take 50 (collapseWs (jsTrim ((ctx.map Char.toLower).filter keptBySanitize))))

/-- Models `GitManager.generateBranchName`, with `Date.now().toString(36)`
passed in as `timestamp`. -/
def generateBranchName (ctx : String) (timestamp : String) : String :=
  "claude-mobile/" ++ String.mk (slugChars ctx.data) ++ "-" ++ timestamp

/-- Alphanumeric in the sense of the spec's slug sentence (lowercased input,
so `a-z0-9`). -/
def isAlnum (c : Char) : Bool :=
  ('a' ≤ c ∧ c ≤ 'z') ∨ ('0' ≤ c ∧ c ≤ '9')

/-- Collapse each maximal run of non-alphanumeric characters to one hyphen. -/
def collapseNonAlnumAux : List Char → Bool → List Char
  | [], _ => []
  | c :: rest, prevBad =>
    if isAlnum c then c :: collapseNonAlnumAux rest false
    else if prevBad then collapseNonAlnumAux rest true
    else '-' :: collapseNonAlnumAux rest true

/-- Modelled from the spec (for refinement comparison only): "`slug` =
lowercased context truncated to 50 characters, with non-alphanumeric runs
collapsed to single hyphens and trailing hyphens trimmed". -/
def specSlugChars (ctx : List Char) : List Char :=
  stripTrailingHyphens (collapseNonAlnumAux (List.take 50 (ctx.map Char.toLower)) false)

/-! ## Agent side: the autonomous task pipeline (handleTaskStart)

The agent's `handleTaskStart` resolves the repo, creates the branch, streams
the tool output, then calls `GitManager.commitAndPush`, which throws
`Error('No changes to commit')` when `git status` reports zero changed files;
the surrounding `catch` turns any thrown error into a single
`error{sessionId, message}` frame via `sendError` and the pipeline stops, so
`githubClient.createPullRequest` and the terminal `task_done` are never
reached.  The model below follows that control flow for a run in which the
repo/branch/tool steps succeed; the tool's chunks, its exit code (which
`ClaudeRunner.run` resolves with and the pipeline ignores), the number of
changed files reported by `git status`, and the forge's PR URL are inputs.
-/

/-- The frame `{type:'stream_chunk', sessionId, text}`. -/
def streamChunkFrame (sid text : String) : Frame :=
  { type := "stream_chunk", sessionId := some sid, text := some text }

/-- The frame built by the agent's `sendError`: `{type:'error', sessionId, message}`. -/
def agentErrorFrame (sid msg : String) : Frame :=
  { type := "error", sessionId := some sid, message := some msg }

/-- The frame `{type:'task_done', sessionId, prUrl, prTitle}`. -/
def taskDoneFrame (sid prUrl prTitle : String) : Frame :=
  { type := "task_done", sessionId := some sid, prUrl := some prUrl, prTitle := some prTitle }

/-- The guard of `GitManager.commitAndPush`: throw when `status.files.length === 0`. -/
def commitAndPushCheck (changedFiles : Nat) : Except String Unit :=
  if changedFiles = 0 then Except.error "No changes to commit" else Except.ok ()

/-- What a run of `handleTaskStart` produced: the frames sent on the session,
and whether `githubClient.createPullRequest` was called. -/
structure TaskResult where
  frames : List Frame
  prOpened : Bool
deriving DecidableEq, Repr

/-- The `handleTaskStart` pipeline of the agent entry point.  `timestamp` is
the base-36 `Date.now()` used by `generateBranchName`; `toolChunks` are the
stdout/stderr chunks streamed by `onChunk`; `toolExitCode` is the exit code
`ClaudeRunner.run` resolved with (ignored by the pipeline); `changedFiles` is
`status.files.length` inside `commitAndPush`. -/
def runTaskPipeline (sid ctx timestamp : String) (toolChunks : List String)
    (_toolExitCode : Nat) (changedFiles : Nat) (prUrl : String) : TaskResult :=
  let branchName := generateBranchName (ctx.take 100) timestamp
  let pre :=
    streamChunkFrame sid ("\n[agent] Branch created: " ++ branchName ++ "\n")
      :: toolChunks.map (streamChunkFrame sid)
      ++ [streamChunkFrame sid "\n[agent] Committing and pushing changes…\n"]
  match commitAndPushCheck changedFiles with
  | Except.error m => { frames := pre ++ [agentErrorFrame sid m], prOpened := false }
  | Except.ok _ =>
    { frames := pre ++
        [streamChunkFrame sid "\n[agent] Opening pull request…\n",
         taskDoneFrame sid prUrl ("Claude on Mobile: " ++ ctx.take 70)],
      prOpened := true }

/-! ## Concrete fixtures used by the claim theorems and witnesses -/

/-- True exactly for the socket-closing effect. -/
def Effect.isClose : Effect → Bool
  | Effect.closeSock _ _ _ => true
  | Effect.send _ _ => false

/-- A concrete registry state used by witnesses: agent "A1" registered on
socket 1 with pairing code "482931", session "u-1" bound to it, the mobile on
socket 2. -/
def wSt : RegState :=
  { agents := [("A1", ⟨1, "482931", 0⟩)],
    pairingCodes := [("482931", "A1")],
    sessions := [("u-1", "A1")],
    mobileConnections := [("u-1", 2)] }

/-- The `agent_register` frame (its `agentToken`/`version` JSON properties are
carried opaquely and never read by the relay handlers). -/
def regFrame : Frame := { type := "agent_register" }

/-- The `mobile_connect` frame presenting `code`. -/
def connectFrame (code : String) : Frame :=
  { type := "mobile_connect", pairingCode := some code }

/-! ## Helper lemmas about the association-list operations -/

theorem alookup_aerase_self {α : Type} (m : List (String × α)) (k : String) :
    alookup (aerase m k) k = none := by
  induction m with
  | nil => rfl
  | cons p rest ih =>
    by_cases h : p.1 = k
    · simpa [aerase, h] using ih
    · simpa [aerase, alookup, h] using ih

theorem alookup_aerase_ne {α : Type} (m : List (String × α)) (k k' : String)
    (h : k' ≠ k) : alookup (aerase m k) k' = alookup m k' := by
  induction m with
  | nil => rfl
  | cons p rest ih =>
    simp only [aerase, ne_eq, decide_not] at ih
    by_cases hp : p.1 = k
    · simp [aerase, List.filter_cons, alookup, hp, Ne.symm h, ih]
    · by_cases hk : p.1 = k'
      · simp [aerase, List.filter_cons, alookup, hp, hk, h]
      · simp [aerase, List.filter_cons, alookup, hp, hk, ih]

theorem alookup_aset_self {α : Type} (m : List (String × α)) (k : String) (v : α) :
    alookup (aset m k v) k = some v := by
  simp [aset, alookup]

theorem alookup_aset_ne {α : Type} (m : List (String × α)) (k k' : String) (v : α)
    (h : k' ≠ k) : alookup (aset m k v) k' = alookup m k' := by
  have : k ≠ k' := fun hc => h hc.symm
  simp [aset, alookup, this, alookup_aerase_ne m k k' h]

theorem length_dropWhile_le {α : Type} (p : α → Bool) (l : List α) :
    (l.dropWhile p).length ≤ l.length := by
  induction l with
  | nil => simp
  | cons c rest ih =>
    by_cases h : p c
    · simp only [List.dropWhile, h]
      exact le_trans ih (Nat.le_succ _)
    · simp [List.dropWhile, h]

theorem stripTrailingHyphens_length_le (l : List Char) :
    (stripTrailingHyphens l).length ≤ l.length := by
  unfold stripTrailingHyphens
  rw [List.length_reverse]
  have h := length_dropWhile_le (fun c => c = '-') l.reverse
  simpa using h

/-! ## Claim C3 -/

/--
C3: for every frame sent by a mobile on a session socket whose session token
resolves (through `sessions` and `agents`) to a live agent, the relay forwards
the frame to that agent's live socket with `sessionId` set to the socket's
session token, overwriting whatever `sessionId` the mobile supplied.
-/
theorem c3_mobile_frame_stamped (st : RegState) (ws : Nat) (tok agentTok : String)
    (e : AgentEntry) (msg : Frame)
    (hs : alookup st.sessions tok = some agentTok)
    (ha : alookup st.agents agentTok = some e) :
    handleMobileSessionMessage st ws tok msg =
      (st, [Effect.send e.ws { msg with sessionId := some tok }]) := by
  simp [handleMobileSessionMessage, hs, ha]

/-- Witness for C3 at `wSt`: the mobile supplies a spoofed `sessionId`, the
delivered frame carries the bound token "u-1". -/
theorem c3_witness :
    alookup wSt.sessions "u-1" = some "A1"
    ∧ alookup wSt.agents "A1" = some ⟨1, "482931", 0⟩
    ∧ handleMobileSessionMessage wSt 2 "u-1"
        { type := "chat_message", sessionId := some "spoofed", text := some "hi" }
      = (wSt, [Effect.send 1
          { type := "chat_message", sessionId := some "u-1", text := some "hi" }]) :=
  ⟨by decide, by decide,
    c3_mobile_frame_stamped wSt 2 "u-1" "A1" ⟨1, "482931", 0⟩
      { type := "chat_message", sessionId := some "spoofed", text := some "hi" }
      (by decide) (by decide)⟩

/-! ## Claim C4 -/

/--
C4 counterexample: a mobile that connected presenting the never-issued token
"never-issued" and then sends a frame receives the error frame "Session
expired — reconnect", but its socket is NOT closed — no effect with close
code 4001 (or any close at all) is produced, refuting the claimed close.
-/
theorem c4_counterexample :
    (handleMobileSessionMessage (acceptMobileSession RegState.empty 7 "never-issued")
        7 "never-issued" { type := "chat_message", text := some "hi" }).2
      = [Effect.send 7 (errFrame "Session expired — reconnect")]
    ∧ ((handleMobileSessionMessage (acceptMobileSession RegState.empty 7 "never-issued")
        7 "never-issued" { type := "chat_message", text := some "hi" }).2.all
        (fun e => !e.isClose)) = true := by
  constructor <;> decide

/--
C4 amended: a mobile socket bound to a session token that is not in the
`sessions` table receives `error{"Session expired — reconnect"}` in reply to
each frame it sends; the registry state is unchanged and the socket is not
closed (no close effect, hence no close code 4001).
-/
theorem c4_session_expired_no_close (st : RegState) (ws : Nat) (tok : String)
    (msg : Frame) (h : alookup st.sessions tok = none) :
    handleMobileSessionMessage st ws tok msg
      = (st, [Effect.send ws (errFrame "Session expired — reconnect")]) := by
  simp [handleMobileSessionMessage, h]

/-- Witness for C4 at the state reached by a mobile connecting with a
never-issued token. -/
theorem c4_witness :
    alookup (acceptMobileSession RegState.empty 7 "never-issued").sessions
        "never-issued" = none
    ∧ handleMobileSessionMessage (acceptMobileSession RegState.empty 7 "never-issued")
        7 "never-issued" { type := "ping" }
      = (acceptMobileSession RegState.empty 7 "never-issued",
         [Effect.send 7 (errFrame "Session expired — reconnect")]) :=
  ⟨by decide,
    c4_session_expired_no_close (acceptMobileSession RegState.empty 7 "never-issued")
      7 "never-issued" { type := "ping" } (by decide)⟩

/-! ## Claim C5 -/

/--
C5 (evaluating the code at the failing input): in `wSt` the session "u-1" is
live; when the mobile socket bound to it closes, `handleMobileSessionClose`
deletes not only the socket pointer but the `sessions` entry itself, so a
mobile that reconnects presenting the same token "u-1" and sends a frame gets
"Session expired — reconnect" instead of resuming the session.  This
contradicts the claim (and the README's promise that the stored session token
keeps working across reconnects).
-/
theorem c5_close_deletes_session :
    alookup wSt.sessions "u-1" = some "A1"
    ∧ alookup (handleMobileSessionClose wSt "u-1").sessions "u-1" = none
    ∧ (handleMobileSessionMessage
        (acceptMobileSession (handleMobileSessionClose wSt "u-1") 9 "u-1")
        9 "u-1" { type := "chat_message", text := some "hi" }).2
      = [Effect.send 9 (errFrame "Session expired — reconnect")] := by
  refine ⟨by decide, by decide, by decide⟩

/-! ## Claim C10 -/

/--
C10: the close handler of an agent socket is keyed by the agent identity alone
and deletes the identity's `AgentEntry` and its current pairing code
unconditionally — even when the entry's live socket is a different, newer
socket than the one that closed.
-/
theorem c10_agent_close_unconditional (st : RegState) (closedWs : Nat)
    (agentTok : String) (e : AgentEntry)
    (ha : alookup st.agents agentTok = some e) (_hne : e.ws ≠ closedWs) :
    alookup (handleAgentClose st closedWs agentTok).agents agentTok = none
    ∧ alookup (handleAgentClose st closedWs agentTok).pairingCodes e.pairingCode
        = none := by
  unfold handleAgentClose
  rw [ha]
  exact ⟨alookup_aerase_self _ _, alookup_aerase_self _ _⟩

/-- Witness for C10: the entry's live socket is 3 (a newer registration) while
the stale socket 1 closes; entry and code are removed nonetheless. -/
theorem c10_witness :
    alookup (RegState.mk [("A1", ⟨3, "777777", 5⟩)] [("777777", "A1")] [] []).agents
        "A1" = some ⟨3, "777777", 5⟩
    ∧ (3 : Nat) ≠ 1
    ∧ alookup (handleAgentClose
        (RegState.mk [("A1", ⟨3, "777777", 5⟩)] [("777777", "A1")] [] []) 1 "A1").agents
        "A1" = none
    ∧ alookup (handleAgentClose
        (RegState.mk [("A1", ⟨3, "777777", 5⟩)] [("777777", "A1")] [] []) 1 "A1").pairingCodes
        "777777" = none :=
  ⟨by decide, by decide,
    (c10_agent_close_unconditional
      (RegState.mk [("A1", ⟨3, "777777", 5⟩)] [("777777", "A1")] [] [])
      1 "A1" ⟨3, "777777", 5⟩ (by decide) (by decide)).1,
    (c10_agent_close_unconditional
      (RegState.mk [("A1", ⟨3, "777777", 5⟩)] [("777777", "A1")] [] [])
      1 "A1" ⟨3, "777777", 5⟩ (by decide) (by decide)).2⟩

/-! ## Claim C1 -/

/--
C1 counterexample: agent "A1" registers and is issued code "482931"; a first
mobile redeems it and receives `session_ok`; a second mobile presenting the
very same code is rejected with "Invalid or expired pairing code".  The code
did not stay valid after a successful redemption, refuting the claimed
multi-use stability.
-/
theorem c1_counterexample :
    (handleMobilePairingMessage
        (handleAgentMessage RegState.empty 1 "A1" 0 "482931" regFrame).1
        2 "u-1" (connectFrame "482931")).2
      = [Effect.send 2 { type := "session_ok", sessionToken := some "u-1" }]
    ∧ (handleMobilePairingMessage
        (handleMobilePairingMessage
          (handleAgentMessage RegState.empty 1 "A1" 0 "482931" regFrame).1
          2 "u-1" (connectFrame "482931")).1
        3 "u-2" (connectFrame "482931")).2
      = [Effect.send 3 (errFrame "Invalid or expired pairing code")] := by
  constructor <;> decide

/--
C1 amended: pairing codes are neither stable nor multi-use.  (a) Every
`agent_register` for an identity that already has an entry replies
`register_ok` with the freshly generated code, removes the old code's mapping
(when the fresh code differs from it) and installs the fresh one.  (b) A
successful `mobile_connect` redemption deletes the code ("single-use"), so a
later `mobile_connect` presenting the same code is rejected with "Invalid or
expired pairing code".  The relay has no `invalidate_pairing` handling; codes
are removed on redemption, on re-registration and on agent socket close.
-/
theorem c1_code_rotated_and_single_use :
    (∀ (st : RegState) (ws : Nat) (agentTok : String) (now : Nat) (fresh : String)
        (e : AgentEntry),
        alookup st.agents agentTok = some e → fresh ≠ e.pairingCode →
        (handleAgentMessage st ws agentTok now fresh regFrame).2
          = [Effect.send ws { type := "register_ok", pairingCode := some fresh }]
        ∧ alookup (handleAgentMessage st ws agentTok now fresh regFrame).1.pairingCodes
            e.pairingCode = none
        ∧ alookup (handleAgentMessage st ws agentTok now fresh regFrame).1.pairingCodes
            fresh = some agentTok)
    ∧ (∀ (st : RegState) (ws ws2 : Nat) (tok tok2 code a : String),
        alookup st.pairingCodes code = some a →
        (handleMobilePairingMessage st ws tok (connectFrame code)).2
          = [Effect.send ws { type := "session_ok", sessionToken := some tok }]
        ∧ alookup
            (handleMobilePairingMessage st ws tok (connectFrame code)).1.pairingCodes
            code = none
        ∧ (handleMobilePairingMessage
            (handleMobilePairingMessage st ws tok (connectFrame code)).1
            ws2 tok2 (connectFrame code)).2
          = [Effect.send ws2 (errFrame "Invalid or expired pairing code")]) := by
  constructor
  · intro st ws agentTok now fresh e ha hfr
    refine ⟨?_, ?_, ?_⟩
    · simp [handleAgentMessage, regFrame, ha]
    · simp only [handleAgentMessage, regFrame]
      simp [ha, alookup_aset_ne _ fresh e.pairingCode _ (Ne.symm hfr),
        alookup_aerase_self]
    · simp only [handleAgentMessage, regFrame]
      simp [ha, alookup_aset_self]
  · intro st ws ws2 tok tok2 code a hc
    refine ⟨?_, ?_, ?_⟩
    · simp [handleMobilePairingMessage, connectFrame, hc]
    · simp [handleMobilePairingMessage, connectFrame, hc, alookup_aerase_self]
    · simp [handleMobilePairingMessage, connectFrame, hc, alookup_aerase_self]

/-- Witness for C1 amended, at `wSt` with fresh code "777777" and tokens
"u-2"/"u-3". -/
theorem c1_witness :
    alookup wSt.agents "A1" = some ⟨1, "482931", 0⟩
    ∧ ("777777" : String) ≠ "482931"
    ∧ alookup wSt.pairingCodes "482931" = some "A1"
    ∧ ((handleAgentMessage wSt 1 "A1" 9 "777777" regFrame).2
        = [Effect.send 1 { type := "register_ok", pairingCode := some "777777" }]
      ∧ alookup (handleAgentMessage wSt 1 "A1" 9 "777777" regFrame).1.pairingCodes
          "482931" = none
      ∧ alookup (handleAgentMessage wSt 1 "A1" 9 "777777" regFrame).1.pairingCodes
          "777777" = some "A1")
    ∧ ((handleMobilePairingMessage wSt 4 "u-2" (connectFrame "482931")).2
        = [Effect.send 4 { type := "session_ok", sessionToken := some "u-2" }]
      ∧ alookup
          (handleMobilePairingMessage wSt 4 "u-2" (connectFrame "482931")).1.pairingCodes
          "482931" = none
      ∧ (handleMobilePairingMessage
          (handleMobilePairingMessage wSt 4 "u-2" (connectFrame "482931")).1
          5 "u-3" (connectFrame "482931")).2
        = [Effect.send 5 (errFrame "Invalid or expired pairing code")]) :=
  ⟨by decide, by decide, by decide,
    c1_code_rotated_and_single_use.1 wSt 1 "A1" 9 "777777" ⟨1, "482931", 0⟩
      (by decide) (by decide),
    c1_code_rotated_and_single_use.2 wSt 4 5 "u-2" "u-3" "482931" "A1" (by decide)⟩

/-! ## Claim C2 -/

/--
C2 counterexample: a mobile connects presenting the never-issued token
"bogus"; the `fetch` path records its socket in `mobileConnections` without
consulting `sessions`.  An agent frame bearing `sessionId:"bogus"` is then
delivered to that socket although "bogus" is not a currently-live session
token (it is absent from `sessions`), refuting "only when S is a
currently-live session token ... otherwise the frame is dropped".
-/
theorem c2_counterexample :
    alookup (acceptMobileSession RegState.empty 5 "bogus").sessions "bogus" = none
    ∧ (handleAgentMessage (acceptMobileSession RegState.empty 5 "bogus") 1 "A1" 0
        "482931" { type := "stream_chunk", sessionId := some "bogus", text := some "hi" }).2
      = [Effect.send 5
          { type := "stream_chunk", sessionId := some "bogus", text := some "hi" }] := by
  constructor <;> decide

/--
C2 amended: a non-`agent_register` frame received from an agent socket with a
truthy `sessionId` S is delivered verbatim to at most one mobile socket, namely
the one recorded for S in `mobileConnections`; when no socket is recorded it is
dropped silently (no effects, no synthesized error).  The `sessions` table is
not consulted, so liveness of S as a session token is not required for
delivery.
-/
theorem c2_agent_frame_routing (st : RegState) (ws : Nat) (agentTok : String)
    (now : Nat) (fresh : String) (msg : Frame) (s : String)
    (hty : msg.type ≠ "agent_register") (hsid : msg.sessionId = some s)
    (hne : s ≠ "") :
    handleAgentMessage st ws agentTok now fresh msg
      = (st, match alookup st.mobileConnections s with
             | some w => [Effect.send w msg]
             | none => [])
    ∧ (handleAgentMessage st ws agentTok now fresh msg).2.length ≤ 1 := by
  constructor
  · simp only [handleAgentMessage, hty, if_false, hsid, hne]
    cases alookup st.mobileConnections s <;> simp [hne]
  · simp only [handleAgentMessage, hty, if_false, hsid, hne]
    cases alookup st.mobileConnections s <;> simp [hne]

/-- Witness for C2 amended at `wSt`: a `stream_chunk` for session "u-1" goes
to socket 2 and only there. -/
theorem c2_witness :
    (({ type := "stream_chunk", sessionId := some "u-1", text := some "ok" } : Frame).type
        ≠ "agent_register")
    ∧ ("u-1" : String) ≠ ""
    ∧ handleAgentMessage wSt 1 "A1" 0 "482931"
        { type := "stream_chunk", sessionId := some "u-1", text := some "ok" }
      = (wSt, [Effect.send 2
          { type := "stream_chunk", sessionId := some "u-1", text := some "ok" }])
    ∧ (handleAgentMessage wSt 1 "A1" 0 "482931"
        { type := "stream_chunk", sessionId := some "u-1", text := some "ok" }).2.length ≤ 1 :=
  ⟨by decide, by decide,
    (c2_agent_frame_routing wSt 1 "A1" 0 "482931"
      { type := "stream_chunk", sessionId := some "u-1", text := some "ok" } "u-1"
      (by decide) rfl (by decide)).1,
    (c2_agent_frame_routing wSt 1 "A1" 0 "482931"
      { type := "stream_chunk", sessionId := some "u-1", text := some "ok" } "u-1"
      (by decide) rfl (by decide)).2⟩

/-! ## Claim C6 -/

/--
C6 counterexample: in `wSt` the mobile on socket 2 (session "u-1", agent "A1"
live on socket 1, code "482931") sends `invalidate_pairing`.  The relay does
NOT intercept it: the registry state is completely unchanged — the session and
the pairing code are still present — and the only effect is forwarding the
frame to the agent's socket; the mobile socket is not closed and no
`register_ok` with a rotated code is pushed.
-/
theorem c6_counterexample :
    (handleMobileSessionMessage wSt 2 "u-1"
        { type := "invalidate_pairing", sessionId := some "u-1" }).1 = wSt
    ∧ (handleMobileSessionMessage wSt 2 "u-1"
        { type := "invalidate_pairing", sessionId := some "u-1" }).2
      = [Effect.send 1 { type := "invalidate_pairing", sessionId := some "u-1" }]
    ∧ alookup wSt.sessions "u-1" = some "A1"
    ∧ alookup wSt.pairingCodes "482931" = some "A1" := by
  refine ⟨by decide, by decide, by decide, by decide⟩

/--
C6 amended: `invalidate_pairing` from a paired mobile is not intercepted by
the relay; like any other frame on a live session it is forwarded to the
agent's live socket stamped with the session token, the registry state is
unchanged (no session removal, no pairing-code rotation), and the mobile
socket is not closed.
-/
theorem c6_invalidate_pairing_forwarded (st : RegState) (ws : Nat)
    (tok agentTok : String) (e : AgentEntry)
    (hs : alookup st.sessions tok = some agentTok)
    (ha : alookup st.agents agentTok = some e) :
    handleMobileSessionMessage st ws tok
        { type := "invalidate_pairing", sessionId := some tok }
      = (st, [Effect.send e.ws
          { type := "invalidate_pairing", sessionId := some tok }]) := by
  simp [handleMobileSessionMessage, hs, ha]

/-- Witness for C6 amended at `wSt`. -/
theorem c6_witness :
    alookup wSt.sessions "u-1" = some "A1"
    ∧ alookup wSt.agents "A1" = some ⟨1, "482931", 0⟩
    ∧ handleMobileSessionMessage wSt 2 "u-1"
        { type := "invalidate_pairing", sessionId := some "u-1" }
      = (wSt, [Effect.send 1
          { type := "invalidate_pairing", sessionId := some "u-1" }]) :=
  ⟨by decide, by decide,
    c6_invalidate_pairing_forwarded wSt 2 "u-1" "A1" ⟨1, "482931", 0⟩
      (by decide) (by decide)⟩

/-! ## Claim C7 -/

/--
C7 counterexample: a chat invocation (the agent's `handleChatMessage` calls
`ClaudeRunner.run` without `autonomous`, so the default `false` applies)
builds the argv `["-p", prompt]` — `--dangerously-skip-permissions` is not
passed, refuting "every invocation ... passes the flag".
-/
theorem c7_counterexample :
    chatClaudeArgs "list files" = ["-p", "list files"]
    ∧ "--dangerously-skip-permissions" ∉ chatClaudeArgs "list files" := by
  constructor <;> decide

/--
C7 amended: only autonomous task invocations pass
`--dangerously-skip-permissions` together with `-p <prompt>`; chat invocations
pass `-p <prompt>` alone (`ClaudeRunner.run` pushes the flag iff
`options.autonomous` is true, and only `handleTaskStart` sets it).
-/
theorem c7_flag_only_when_autonomous (prompt : String) :
    chatClaudeArgs prompt = ["-p", prompt]
    ∧ taskClaudeArgs prompt
        = ["--dangerously-skip-permissions", "-p", prompt] := by
  exact ⟨rfl, rfl⟩

/-! ## Claim C8 -/

/--
C8 counterexample: on the context "a_b" the code's slug is "ab" — the
underscore is deleted by the sanitizing replace — while the claimed algorithm
(collapse every non-alphanumeric run to a single hyphen) yields "a-b".
-/
theorem c8_counterexample :
    generateBranchName "a_b" "k3x" = "claude-mobile/ab-k3x"
    ∧ String.mk (specSlugChars "a_b".data) = "a-b"
    ∧ String.mk (slugChars "a_b".data) ≠ String.mk (specSlugChars "a_b".data) := by
  refine ⟨by decide, by decide, by decide⟩

/--
C8 amended: the branch name is `claude-mobile/<slug>-<base36-timestamp>` where
the slug is the lowercased context with every character outside
`[a-z0-9\s-]` deleted, whitespace trimmed at both ends, each whitespace run
collapsed to a single hyphen, the result truncated to 50 characters, and
trailing hyphens trimmed; in particular the slug is at most 50 characters.
-/
theorem c8_branch_shape_and_slug_bound (ctx timestamp : String) :
    generateBranchName ctx timestamp
      = "claude-mobile/" ++ String.mk (slugChars ctx.data) ++ "-" ++ timestamp
    ∧ (slugChars ctx.data).length ≤ 50 := by
  refine ⟨rfl, ?_⟩
  unfold slugChars
  exact le_trans (stripTrailingHyphens_length_le _) (List.length_take_le _ _)

/-! ## Claim C9 -/

theorem filter_error_chunks (sid : String) (cs : List String) :
    (cs.map (streamChunkFrame sid)).filter (fun f => f.type == "error") = [] := by
  induction cs with
  | nil => rfl
  | cons c rest ih => simp [streamChunkFrame, List.filter_cons, ih]

theorem all_not_taskdone_chunks (sid : String) (cs : List String) :
    ((cs.map (streamChunkFrame sid)).all (fun f => f.type != "task_done")) = true := by
  induction cs with
  | nil => rfl
  | cons c rest ih => simp [streamChunkFrame, List.all_cons, ih]

/--
C9: when the tool run of an autonomous task exits cleanly but `git status`
reports no changed files, the pipeline emits exactly one error frame — with
message "No changes to commit", for that session — emits no `task_done` frame,
and never calls the forge API to open a pull request.
-/
theorem c9_no_changes_no_pr (sid ctx timestamp prUrl : String)
    (chunks : List String) (exitCode changedFiles : Nat)
    (_hExit : exitCode = 0) (hNo : changedFiles = 0) :
    ((runTaskPipeline sid ctx timestamp chunks exitCode changedFiles prUrl).frames.filter
        (fun f => f.type == "error"))
      = [agentErrorFrame sid "No changes to commit"]
    ∧ ((runTaskPipeline sid ctx timestamp chunks exitCode changedFiles prUrl).frames.all
        (fun f => f.type != "task_done")) = true
    ∧ (runTaskPipeline sid ctx timestamp chunks exitCode changedFiles prUrl).prOpened
        = false := by
  subst hNo
  unfold runTaskPipeline commitAndPushCheck
  simp [List.filter_append, List.filter_cons, List.all_append, List.all_cons,
    streamChunkFrame, agentErrorFrame, filter_error_chunks, all_not_taskdone_chunks]

/-- Witness for C9: a concrete no-op task run (exit code 0, zero changed
files). -/
theorem c9_witness :
    (0 : Nat) = 0
    ∧ ((runTaskPipeline "u-1" "fix the failing tests" "k3x" ["out"] 0 0 "unused").frames.filter
        (fun f => f.type == "error"))
      = [agentErrorFrame "u-1" "No changes to commit"]
    ∧ ((runTaskPipeline "u-1" "fix the failing tests" "k3x" ["out"] 0 0 "unused").frames.all
        (fun f => f.type != "task_done")) = true
    ∧ (runTaskPipeline "u-1" "fix the failing tests" "k3x" ["out"] 0 0 "unused").prOpened
      = false :=
  ⟨rfl,
    (c9_no_changes_no_pr "u-1" "fix the failing tests" "k3x" "unused" ["out"] 0 0
      rfl rfl).1,
    (c9_no_changes_no_pr "u-1" "fix the failing tests" "k3x" "unused" ["out"] 0 0
      rfl rfl).2.1,
    (c9_no_changes_no_pr "u-1" "fix the failing tests" "k3x" "unused" ["out"] 0 0
      rfl rfl).2.2⟩

end ClaudeMobile
